import Mathlib

/-
Shallow embedding of the valmate middleware factory (src/index.js, identical
copy in src/unnamed/part_001).

The factory takes an array of validation rule objects and returns an Express
middleware (req, res, next).  Per call it:
  1. throws a TypeError if the rules value is not an array (line 56-58);
  2. throws an Error if the argument triple does not look like an Express
     invocation: typeof req and res must be object, next, res.status and
     res.json must be functions (lines 60-70; note that in JavaScript
     typeof null is the string object, so a null req passes this guard,
     while a null res makes the property access res.status itself throw a
     TypeError);
  3. iterates the rules: a rule whose test field is not a function logs a
     console warning and is skipped; otherwise test(req) is invoked, and on
     a falsy result the code executes res.status(statusCode).json(...) where
     statusCode was never destructured from the rule (line 72 binds only
     test and errorMessage), so evaluating the bare identifier statusCode
     throws a ReferenceError before anything is sent;
  4. calls next() when the loop finishes;
  5. the catch block logs the error message and answers
     res.status(500).json with status 500 and the generic message; if res
     itself lacks a callable status or json, that attempt throws out of the
     middleware.  res.status is modelled as returning res (Express chains),
     so the json step succeeds exactly when res.json is a function.
-/

namespace Valmate

/-- Result of invoking a rule's test function on the request: it either
returns a JavaScript value whose truthiness is `b`, or it throws an
exception carrying message `msg`. -/
inductive TestResult where
  | ret (b : Bool)
  | exn (msg : String)
deriving DecidableEq

/-- The test field of a rule object: either not a function (any other
JavaScript value), or a function of the request argument. -/
inductive TestField (ρ : Type) where
  | notFn
  | fn (f : ρ → TestResult)

/-- The req argument as a JavaScript value: null (whose typeof is the
string object), a genuine object carrying a payload of type `ρ`, or a
value whose typeof is not object. -/
inductive ReqV (ρ : Type) where
  | nullReq
  | obj (a : ρ)
  | nonObj

/-- The res argument as a JavaScript value: null, an object with flags
recording whether res.status and res.json are functions, or a non-object. -/
inductive ResV where
  | nullRes
  | obj (statusFn jsonFn : Bool)
  | nonObj
deriving DecidableEq

/-- A validation rule object with fields test, errorMessage, statusCode.
The test function receives the req argument exactly as the middleware got
it (so a null req is passed through to it). -/
structure Rule (ρ : Type) where
  test : TestField (ReqV ρ)
  errorMessage : Option String := none
  statusCode : Option Nat := none

/-- The validations argument of the factory: an array of rules, or any
non-array value (Array.isArray is false). -/
inductive RulesArg (ρ : Type) where
  | arr (rs : List (Rule ρ))
  | notArr

/-- Observable outcome of one middleware invocation: control handed to the
next handler, a response sent (the argument given to res.status, and the
status and message fields of the JSON body), or an exception escaping the
middleware. -/
inductive Outcome where
  | proceeded
  | responded (statusArg : Nat) (bodyStatus : Nat) (bodyMessage : String)
  | crashed (msg : String)
deriving DecidableEq

/-- How the rule loop ends inside the try block: all rules passed, or an
exception was thrown (a test threw, or the ReferenceError raised by the
undeclared identifier statusCode on a failing rule). -/
inductive LoopExit where
  | passedAll
  | threw (msg : String)
deriving DecidableEq

/-- Everything observable about one invocation: outcome, console.error
lines, number of console.warn calls, indices of rules whose test function
was invoked, and number of calls to next. -/
structure RunResult where
  outcome : Outcome
  errLog : List String
  warnCount : Nat
  testsRun : List Nat
  nextCalls : Nat
deriving DecidableEq

/-- Message of the TypeError thrown when validations is not an array. -/
def configErrMsg : String := "[valmate] Expected an array of validation rules."

/-- Message of the Error thrown when the context guard fails. -/
def usageErrMsg : String :=
  "[valmate] Middleware must be used in an Express route. Check if you are calling it outside of Express context."

/-- Message of the ReferenceError raised by the undeclared identifier
statusCode in the failure branch. -/
def refErrMsg : String := "statusCode is not defined"

/-- Message of the TypeError raised by reading the status property of a
null res inside the guard. -/
def nullStatusMsg : String := "Cannot read properties of null reading status"

/-- Tag prepended by the catch block when logging via console.error. -/
def errLogTag : String := "Validation middleware error: "

/-- Body message of the generic 500 response sent by the catch block. -/
def internalErrMsg : String := "Internal server error"

/-- Truthiness of typeof req being the string object. -/
def ReqV.typeofIsObject {ρ : Type} : ReqV ρ → Bool
  | .nullReq => true
  | .obj _ => true
  | .nonObj => false

/-- Truthiness of typeof res being the string object. -/
def ResV.typeofIsObject : ResV → Bool
  | .nullRes => true
  | .obj _ _ => true
  | .nonObj => false

/-- Holds of a rule whose test is a function returning a truthy value on
this request. -/
def Rule.passes {ρ : Type} (r : Rule ρ) (req : ReqV ρ) : Bool :=
  match r.test with
  | .notFn => false
  | .fn f => match f req with
    | .ret true => true
    | _ => false

/-- Holds of a rule the loop steps over without stopping: its test is not
a function (skipped with a warning) or returns a truthy value. -/
def Rule.passesOrSkipped {ρ : Type} (r : Rule ρ) (req : ReqV ρ) : Bool :=
  match r.test with
  | .notFn => true
  | .fn f => match f req with
    | .ret true => true
    | _ => false

/-- Holds of a rule whose test field is a function. -/
def Rule.hasFnTest {ρ : Type} (r : Rule ρ) : Bool :=
  match r.test with
  | .notFn => false
  | .fn _ => true

/-- The context guard of lines 60-70: evaluates the five typeof conditions
left to right and returns the message of the exception it raises, if any.
A null res passes the typeof test but the subsequent access to res.status
throws a TypeError rather than the usage Error. -/
def ctxGuard {ρ : Type} (req : ReqV ρ) (res : ResV) (nextIsFn : Bool) : Option String :=
  if !req.typeofIsObject then some usageErrMsg
  else if !res.typeofIsObject then some usageErrMsg
  else if !nextIsFn then some usageErrMsg
  else match res with
    | .nullRes => some nullStatusMsg
    | .obj s j =>
      if !s then some usageErrMsg
      else if !j then some usageErrMsg
      else none
    | .nonObj => some usageErrMsg

/-- The rule loop of lines 72-84.  Returns the zero-based indices of rules
whose test function was invoked, the number of warnings emitted, and how
the loop ended.  A falsy test result makes the failure branch evaluate the
undeclared identifier statusCode, which throws a ReferenceError before any
response is sent. -/
def runRules {ρ : Type} (req : ReqV ρ) : List (Rule ρ) → List Nat × Nat × LoopExit
  | [] => ([], 0, .passedAll)
  | r :: rs =>
    match r.test with
    | .notFn =>
      let rec0 := runRules req rs
      (rec0.1.map (· + 1), rec0.2.1 + 1, rec0.2.2)
    | .fn f =>
      match f req with
      | .exn m => ([0], 0, .threw m)
      | .ret true =>
        let rec0 := runRules req rs
        (0 :: rec0.1.map (· + 1), rec0.2.1, rec0.2.2)
      | .ret false => ([0], 0, .threw refErrMsg)

/-- The catch block of lines 86-92 applied to an exception with message
`msg`: console.error the tagged message, then attempt
res.status(500).json(...).  If res.status or res.json is not callable that
attempt itself throws and the exception escapes the middleware. -/
def catchBlock (res : ResV) (msg : String) : Outcome × List String :=
  match res with
  | .obj true true => (.responded 500 500 internalErrMsg, [errLogTag ++ msg])
  | _ => (.crashed msg, [errLogTag ++ msg])

/-- One invocation of the middleware returned by the factory, on rules
value `validations`, request `req`, response `res`, and a next argument
that is a function iff `nextIsFn`. -/
def valmate {ρ : Type} (validations : RulesArg ρ) (req : ReqV ρ) (res : ResV)
    (nextIsFn : Bool) : RunResult :=
  match validations with
  | .notArr =>
    let c := catchBlock res configErrMsg
    ⟨c.1, c.2, 0, [], 0⟩
  | .arr rs =>
    match ctxGuard req res nextIsFn with
    | some m =>
      let c := catchBlock res m
      ⟨c.1, c.2, 0, [], 0⟩
    | none =>
      let step := runRules req rs
      match step.2.2 with
      | .passedAll => ⟨.proceeded, [], step.2.1, step.1, 1⟩
      | .threw m =>
        let c := catchBlock res m
        ⟨c.1, c.2, step.2.1, step.1, 0⟩

/-- A genuine framework triple: typeof req is object, res is an object
with callable status and json, next is a function. -/
def validTriple {ρ : Type} (req : ReqV ρ) (res : ResV) (nextIsFn : Bool) : Prop :=
  req.typeofIsObject = true ∧ res = ResV.obj true true ∧ nextIsFn = true

/-- The default parameter of the factory (line 53).  Its single rule has a
test function returning undefined (falsy); the JavaScript expressions
String || default and Number || default evaluate to the truthy String and
Number constructor functions, values the middleware never reads on any
execution path (the failure branch throws a ReferenceError before the
response object literal is built), modelled here as absent fields. -/
def defaultValidations (ρ : Type) : RulesArg ρ :=
  .arr [{ test := .fn (fun _ => .ret false) }]

/-- Message of the exception that stops the loop at a failing rule: the
message thrown by its test, or the ReferenceError message when the test
returned a falsy value. -/
def Rule.stopMsg {ρ : Type} (r : Rule ρ) (req : ReqV ρ) : String :=
  match r.test with
  | .notFn => refErrMsg
  | .fn f => match f req with
    | .exn m => m
    | _ => refErrMsg

/-- Helper: the catch block never hands control to the next handler. -/
theorem catchBlock_ne_proceeded (res : ResV) (msg : String) :
    (catchBlock res msg).1 ≠ Outcome.proceeded := by
  cases res with
  | nullRes => simp [catchBlock]
  | obj s j => cases s <;> cases j <;> simp [catchBlock]
  | nonObj => simp [catchBlock]

/-- Helper: the catch block logs exactly one tagged line. -/
theorem catchBlock_log (res : ResV) (msg : String) :
    (catchBlock res msg).2 = [errLogTag ++ msg] := by
  cases res with
  | nullRes => simp [catchBlock]
  | obj s j => cases s <;> cases j <;> simp [catchBlock]
  | nonObj => simp [catchBlock]

/-- Helper: on a genuine framework triple the context guard passes. -/
theorem ctxGuard_valid {ρ : Type} (req : ReqV ρ) (res : ResV) (nextIsFn : Bool)
    (h : validTriple req res nextIsFn) : ctxGuard req res nextIsFn = none := by
  obtain ⟨h1, h2, h3⟩ := h
  subst h2; subst h3
  simp [ctxGuard, h1, ResV.typeofIsObject]

/-- Helper: when every rule passes, the loop exits normally. -/
theorem runRules_all_pass {ρ : Type} (req : ReqV ρ) (rs : List (Rule ρ))
    (h : (rs.all fun r => r.passes req) = true) :
    (runRules req rs).2.2 = LoopExit.passedAll := by
  induction rs with
  | nil => simp [runRules]
  | cons a as ih =>
    rw [List.all_cons, Bool.and_eq_true] at h
    obtain ⟨ha, has⟩ := h
    match hta : a.test with
    | .notFn => simp [Rule.passes, hta] at ha
    | .fn f =>
      match hf : f req with
      | .ret true => simp [runRules, hta, hf, ih has]
      | .ret false => simp [Rule.passes, hta, hf] at ha
      | .exn m => simp [Rule.passes, hta, hf] at ha

/-- Helper: when the rules before index `k` all pass or are skipped and the
rule at index `k` neither passes nor is skipped, every invoked test has
index at most `k` and the loop ends with the exception of rule `k`. -/
theorem runRules_stop {ρ : Type} (req : ReqV ρ) (rs : List (Rule ρ)) (k : Nat)
    (r : Rule ρ) (hget : rs.get? k = some r)
    (hstop : r.passesOrSkipped req = false)
    (hpre : ((rs.take k).all fun q => q.passesOrSkipped req) = true) :
    (∀ j ∈ (runRules req rs).1, j ≤ k) ∧
    (runRules req rs).2.2 = LoopExit.threw (r.stopMsg req) := by
  induction rs generalizing k with
  | nil => simp at hget
  | cons a as ih =>
    cases k with
    | zero =>
      rw [List.get?_cons_zero] at hget
      injection hget with hget
      subst hget
      match hta : a.test with
      | .notFn => simp [Rule.passesOrSkipped, hta] at hstop
      | .fn f =>
        match hf : f req with
        | .ret true => simp [Rule.passesOrSkipped, hta, hf] at hstop
        | .ret false =>
          constructor
          · intro j hj
            simp [runRules, hta, hf] at hj
            omega
          · simp [runRules, hta, hf, Rule.stopMsg]
        | .exn m =>
          constructor
          · intro j hj
            simp [runRules, hta, hf] at hj
            omega
          · simp [runRules, hta, hf, Rule.stopMsg]
    | succ k =>
      rw [List.get?_cons_succ] at hget
      rw [List.take_succ_cons, List.all_cons, Bool.and_eq_true] at hpre
      obtain ⟨hpa, hpas⟩ := hpre
      obtain ⟨hrec1, hrec2⟩ := ih k hget hpas
      match hta : a.test with
      | .notFn =>
        constructor
        · intro j hj
          simp [runRules, hta] at hj
          obtain ⟨j0, hj0, rfl⟩ := hj
          exact Nat.succ_le_succ (hrec1 j0 hj0)
        · simp [runRules, hta, hrec2]
      | .fn f =>
        match hf : f req with
        | .ret true =>
          constructor
          · intro j hj
            simp [runRules, hta, hf] at hj
            rcases hj with rfl | ⟨j0, hj0, rfl⟩
            · exact Nat.zero_le _
            · exact Nat.succ_le_succ (hrec1 j0 hj0)
          · simp [runRules, hta, hf, hrec2]
        | .ret false => simp [Rule.passesOrSkipped, hta, hf] at hpa
        | .exn m => simp [Rule.passesOrSkipped, hta, hf] at hpa

/-- Helper: the middleware invocation count of next equals one exactly on
the proceeded outcome, given the guard passed. -/
theorem valmate_warnCount {ρ : Type} (rs : List (Rule ρ)) (req : ReqV ρ) (res : ResV)
    (nextIsFn : Bool) (hg : ctxGuard req res nextIsFn = none) :
    (valmate (RulesArg.arr rs) req res nextIsFn).warnCount = (runRules req rs).2.1 := by
  cases hx : (runRules req rs).2.2 with
  | passedAll => simp [valmate, hg, hx]
  | threw m => simp [valmate, hg, hx]

/-- Helper: an outcome of the catch block is a response only with both
numbers equal to 500. -/
theorem catchBlock_responded (res : ResV) (msg : String) (s bs : Nat) (m : String)
    (h : (catchBlock res msg).1 = Outcome.responded s bs m) : s = 500 ∧ bs = 500 := by
  cases res with
  | nullRes => simp [catchBlock] at h
  | obj sf jf =>
    cases sf <;> cases jf <;> simp [catchBlock] at h
    omega
  | nonObj => simp [catchBlock] at h

/-- Rule whose test function returns a truthy value on every request. -/
def passRule : Rule Unit := { test := .fn (fun _ => .ret true) }

/-- Rule whose test function returns a falsy value on every request. -/
def failRule : Rule Unit := { test := .fn (fun _ => .ret false) }

/-- Rule whose test field is not a function. -/
def badRule : Rule Unit := { test := .notFn }

/-- Rule whose test function throws on every request. -/
def throwRule : Rule Unit := { test := .fn (fun _ => .exn "boom") }

/-- Rule of the C1 failing input: test returns false, with an explicit
errorMessage and statusCode 422. -/
def c1Rule : Rule Unit :=
  { test := .fn (fun _ => .ret false), errorMessage := some "nope", statusCode := some 422 }

/-- C1: the claim says the first failing rule's statusCode (422 here) and
errorMessage are sent; the code instead evaluates the undeclared
identifier statusCode in the failure branch (line 72 destructures only
test and errorMessage), so a ReferenceError is thrown, logged, and the
generic 500 response is sent.  Evaluation at the failing input. -/
theorem C1_rule_failure_takes_500_path :
    valmate (RulesArg.arr [c1Rule]) (ReqV.obj ()) (ResV.obj true true) true =
      ⟨Outcome.responded 500 500 internalErrMsg, [errLogTag ++ refErrMsg], 0, [0], 0⟩ :=
  rfl

/-- C2: when every rule's test is a function returning a truthy value on
the request (vacuously so for the empty rule list) and the triple is a
genuine framework triple, the middleware proceeds, calls next exactly
once, and logs nothing. -/
theorem C2_all_pass_proceeds {ρ : Type} (rs : List (Rule ρ)) (req : ReqV ρ)
    (res : ResV) (nextIsFn : Bool)
    (hall : (rs.all fun r => r.passes req) = true)
    (hv : validTriple req res nextIsFn) :
    (valmate (RulesArg.arr rs) req res nextIsFn).outcome = Outcome.proceeded ∧
    (valmate (RulesArg.arr rs) req res nextIsFn).nextCalls = 1 ∧
    (valmate (RulesArg.arr rs) req res nextIsFn).errLog = [] := by
  have hg := ctxGuard_valid req res nextIsFn hv
  have he := runRules_all_pass req rs hall
  simp [valmate, hg, he]

/-- Witness for C2 at a concrete passing rule set. -/
theorem C2_all_pass_proceeds_witness :
    (valmate (RulesArg.arr [passRule]) (ReqV.obj ()) (ResV.obj true true) true).outcome = Outcome.proceeded ∧
    (valmate (RulesArg.arr [passRule]) (ReqV.obj ()) (ResV.obj true true) true).nextCalls = 1 ∧
    (valmate (RulesArg.arr [passRule]) (ReqV.obj ()) (ResV.obj true true) true).errLog = [] :=
  C2_all_pass_proceeds [passRule] (ReqV.obj ()) (ResV.obj true true) true rfl ⟨rfl, rfl, rfl⟩

/-- C3: a non-array rules value makes every invocation log the
configuration TypeError message, evaluate no test, and never call next;
the outcome is the generic 500 response when the response object is
usable and an escaping exception otherwise — never a silent pass. -/
theorem C3_non_array_never_proceeds {ρ : Type} (req : ReqV ρ) (res : ResV)
    (nextIsFn : Bool) :
    (valmate (RulesArg.notArr) req res nextIsFn).errLog = [errLogTag ++ configErrMsg] ∧
    (valmate (RulesArg.notArr) req res nextIsFn).testsRun = [] ∧
    (valmate (RulesArg.notArr) req res nextIsFn).nextCalls = 0 ∧
    ((valmate (RulesArg.notArr) req res nextIsFn).outcome = Outcome.responded 500 500 internalErrMsg ∨
     (valmate (RulesArg.notArr) req res nextIsFn).outcome = Outcome.crashed configErrMsg) := by
  refine ⟨?_, rfl, rfl, ?_⟩
  · simp [valmate, catchBlock_log res configErrMsg]
  · cases res with
    | nullRes => simp [valmate, catchBlock]
    | obj sf jf => cases sf <;> cases jf <;> simp [valmate, catchBlock]
    | nonObj => simp [valmate, catchBlock]

/-- C4: when the rule at index i is the first failing rule (its test is a
function returning a falsy value and every earlier rule passes or is
skipped), every invoked test has index at most i and next is never
called — evaluation stops at that rule. -/
theorem C4_no_rule_after_failure {ρ : Type} (rs : List (Rule ρ)) (req : ReqV ρ)
    (res : ResV) (nextIsFn : Bool) (i : Nat) (r : Rule ρ) (f : ReqV ρ → TestResult)
    (hget : rs.get? i = some r) (hfn : r.test = TestField.fn f)
    (hfail : f req = TestResult.ret false)
    (hpre : ((rs.take i).all fun q => q.passesOrSkipped req) = true) :
    (∀ j ∈ (valmate (RulesArg.arr rs) req res nextIsFn).testsRun, j ≤ i) ∧
    (valmate (RulesArg.arr rs) req res nextIsFn).nextCalls = 0 := by
  have hstop : r.passesOrSkipped req = false := by
    simp [Rule.passesOrSkipped, hfn, hfail]
  obtain ⟨h1, h2⟩ := runRules_stop req rs i r hget hstop hpre
  match hg : ctxGuard req res nextIsFn with
  | some m =>
    constructor
    · intro j hj
      simp [valmate, hg] at hj
    · simp [valmate, hg]
  | none =>
    constructor
    · intro j hj
      simp only [valmate, hg, h2] at hj
      exact h1 j hj
    · simp [valmate, hg, h2]

/-- Witness for C4: with the failing rule at index 1, next is not called. -/
theorem C4_no_rule_after_failure_witness :
    (valmate (RulesArg.arr [passRule, failRule, passRule]) (ReqV.obj ())
      (ResV.obj true true) true).nextCalls = 0 :=
  (C4_no_rule_after_failure [passRule, failRule, passRule] (ReqV.obj ())
    (ResV.obj true true) true 1 failRule (fun _ => TestResult.ret false)
    rfl rfl rfl rfl).2

/-- C5 counterexample: in JavaScript typeof null is the string object, so
a null request — not a non-null structured object, hence covered by the
claim — passes the guard: the rule's test is invoked (index 0 recorded),
nothing is logged, and next is called; no UsageError occurs at all. -/
theorem C5_null_request_counterexample :
    (valmate (RulesArg.arr [passRule]) (ReqV.nullReq : ReqV Unit)
      (ResV.obj true true) true).testsRun = [0] ∧
    (valmate (RulesArg.arr [passRule]) (ReqV.nullReq : ReqV Unit)
      (ResV.obj true true) true).nextCalls = 1 ∧
    (valmate (RulesArg.arr [passRule]) (ReqV.nullReq : ReqV Unit)
      (ResV.obj true true) true).errLog = [] :=
  ⟨rfl, rfl, rfl⟩

/-- C5 amended: whenever the guard of lines 60-70 raises the usage Error —
typeof req or res is not object, next is not a function, or res is an
object lacking a callable status or json — the usage message is logged
(distinguishing it from a business rule failure), no rule's test is
invoked, and next is never called.  A null request passes the typeof
guard, and a null response aborts with a TypeError instead. -/
theorem C5_usage_guard {ρ : Type} (rs : List (Rule ρ)) (req : ReqV ρ) (res : ResV)
    (nextIsFn : Bool) (h : ctxGuard req res nextIsFn = some usageErrMsg) :
    (valmate (RulesArg.arr rs) req res nextIsFn).errLog = [errLogTag ++ usageErrMsg] ∧
    (valmate (RulesArg.arr rs) req res nextIsFn).testsRun = [] ∧
    (valmate (RulesArg.arr rs) req res nextIsFn).nextCalls = 0 := by
  simp [valmate, h, catchBlock_log]

/-- Witness for C5 amended: a missing next function trips the guard. -/
theorem C5_usage_guard_witness :
    (valmate (RulesArg.arr ([] : List (Rule Unit))) (ReqV.obj ())
      (ResV.obj true true) false).errLog = [errLogTag ++ usageErrMsg] ∧
    (valmate (RulesArg.arr ([] : List (Rule Unit))) (ReqV.obj ())
      (ResV.obj true true) false).testsRun = [] ∧
    (valmate (RulesArg.arr ([] : List (Rule Unit))) (ReqV.obj ())
      (ResV.obj true true) false).nextCalls = 0 :=
  C5_usage_guard [] (ReqV.obj ()) (ResV.obj true true) false rfl

/-- Helper: filtering out rules whose test is not a function leaves the
loop exit unchanged. -/
theorem runRules_filter_sameEnd {ρ : Type} (req : ReqV ρ) (rs : List (Rule ρ)) :
    (runRules req (rs.filter fun q => q.hasFnTest)).2.2 = (runRules req rs).2.2 := by
  induction rs with
  | nil => rfl
  | cons a as ih =>
    match hta : a.test with
    | .notFn =>
      have hh : a.hasFnTest = false := by simp [Rule.hasFnTest, hta]
      have hcons : (a :: as).filter (fun q => q.hasFnTest) =
          as.filter (fun q => q.hasFnTest) := by
        rw [List.filter_cons, hh]
        simp
      rw [hcons, ih]
      simp [runRules, hta]
    | .fn f =>
      have hh : a.hasFnTest = true := by simp [Rule.hasFnTest, hta]
      have hcons : (a :: as).filter (fun q => q.hasFnTest) =
          a :: as.filter (fun q => q.hasFnTest) := by
        rw [List.filter_cons, hh]
        simp
      rw [hcons]
      match hf : f req with
      | .ret true => simp [runRules, hta, hf, ih]
      | .ret false => simp [runRules, hta, hf]
      | .exn m => simp [runRules, hta, hf]

/-- Helper: a malformed rule the loop reaches produces a warning. -/
theorem runRules_warn_reached {ρ : Type} (req : ReqV ρ) (rs : List (Rule ρ)) (k : Nat)
    (r : Rule ρ) (hget : rs.get? k = some r) (hbad : r.test = TestField.notFn)
    (hpre : ((rs.take k).all fun q => q.passesOrSkipped req) = true) :
    1 ≤ (runRules req rs).2.1 := by
  induction rs generalizing k with
  | nil => simp at hget
  | cons a as ih =>
    cases k with
    | zero =>
      rw [List.get?_cons_zero] at hget
      injection hget with hget
      subst hget
      simp [runRules, hbad]
    | succ k =>
      rw [List.get?_cons_succ] at hget
      rw [List.take_succ_cons, List.all_cons, Bool.and_eq_true] at hpre
      obtain ⟨hpa, hpas⟩ := hpre
      match hta : a.test with
      | .notFn => simp [runRules, hta]
      | .fn f =>
        match hf : f req with
        | .ret true => simpa [runRules, hta, hf] using ih k hget hpas
        | .ret false => simp [Rule.passesOrSkipped, hta, hf] at hpa
        | .exn m => simp [Rule.passesOrSkipped, hta, hf] at hpa

/-- C6 counterexample: a rule set containing a non-callable test placed
after a failing rule emits no warning at all — the loop never reaches the
malformed rule — so an invocation does not warn for every malformed rule
the set contains, contrary to the claim as stated. -/
theorem C6_unreachable_malformed_counterexample :
    (valmate (RulesArg.arr [failRule, badRule]) (ReqV.obj ())
      (ResV.obj true true) true).warnCount = 0 :=
  rfl

/-- C6 amended: on a valid triple, a malformed rule that the loop reaches
(every earlier rule passes or is skipped) produces a warning and is
skipped, and removing all malformed rules changes neither the outcome nor
the number of next calls — it never aborts the chain. -/
theorem C6_malformed_skipped {ρ : Type} (rs : List (Rule ρ)) (req : ReqV ρ)
    (res : ResV) (nextIsFn : Bool) (k : Nat) (r : Rule ρ)
    (hget : rs.get? k = some r) (hbad : r.test = TestField.notFn)
    (hpre : ((rs.take k).all fun q => q.passesOrSkipped req) = true)
    (hv : validTriple req res nextIsFn) :
    1 ≤ (valmate (RulesArg.arr rs) req res nextIsFn).warnCount ∧
    (valmate (RulesArg.arr rs) req res nextIsFn).outcome =
      (valmate (RulesArg.arr (rs.filter fun q => q.hasFnTest)) req res nextIsFn).outcome ∧
    (valmate (RulesArg.arr rs) req res nextIsFn).nextCalls =
      (valmate (RulesArg.arr (rs.filter fun q => q.hasFnTest)) req res nextIsFn).nextCalls := by
  have hg := ctxGuard_valid req res nextIsFn hv
  have hw := runRules_warn_reached req rs k r hget hbad hpre
  have hx := runRules_filter_sameEnd req rs
  refine ⟨?_, ?_⟩
  · rw [valmate_warnCount rs req res nextIsFn hg]
    exact hw
  · cases hx2 : (runRules req rs).2.2 with
    | passedAll =>
      have hx1 : (runRules req (rs.filter fun q => q.hasFnTest)).2.2 = LoopExit.passedAll := by
        rw [hx, hx2]
      constructor <;> simp [valmate, hg, hx2, hx1]
    | threw m =>
      have hx1 : (runRules req (rs.filter fun q => q.hasFnTest)).2.2 = LoopExit.threw m := by
        rw [hx, hx2]
      constructor <;> simp [valmate, hg, hx2, hx1]

/-- Witness for C6 amended at a reached malformed rule. -/
theorem C6_malformed_skipped_witness :
    1 ≤ (valmate (RulesArg.arr [passRule, badRule]) (ReqV.obj ())
      (ResV.obj true true) true).warnCount :=
  (C6_malformed_skipped [passRule, badRule] (ReqV.obj ()) (ResV.obj true true) true
    1 badRule rfl rfl rfl ⟨rfl, rfl, rfl⟩).1

/-- C7: on a valid triple, when the loop reaches a rule whose test throws
message m (every earlier rule passes or is skipped), the middleware sends
the generic 500 response whose body carries only the fixed internal error
message, logs the tagged detail m on the error channel only, and never
calls next. -/
theorem C7_throwing_test_500 {ρ : Type} (rs : List (Rule ρ)) (req : ReqV ρ)
    (res : ResV) (nextIsFn : Bool) (k : Nat) (r : Rule ρ)
    (f : ReqV ρ → TestResult) (m : String)
    (hget : rs.get? k = some r) (hfn : r.test = TestField.fn f)
    (hexn : f req = TestResult.exn m)
    (hpre : ((rs.take k).all fun q => q.passesOrSkipped req) = true)
    (hv : validTriple req res nextIsFn) :
    (valmate (RulesArg.arr rs) req res nextIsFn).outcome =
      Outcome.responded 500 500 internalErrMsg ∧
    (valmate (RulesArg.arr rs) req res nextIsFn).errLog = [errLogTag ++ m] ∧
    (valmate (RulesArg.arr rs) req res nextIsFn).nextCalls = 0 := by
  have hstop : r.passesOrSkipped req = false := by
    simp [Rule.passesOrSkipped, hfn, hexn]
  have hmsg : r.stopMsg req = m := by
    simp [Rule.stopMsg, hfn, hexn]
  obtain ⟨_, hx⟩ := runRules_stop req rs k r hget hstop hpre
  have hg := ctxGuard_valid req res nextIsFn hv
  obtain ⟨h1, h2, h3⟩ := hv
  subst h2
  rw [hmsg] at hx
  simp [valmate, hg, hx, catchBlock]

/-- Witness for C7 at a concrete throwing rule. -/
theorem C7_throwing_test_500_witness :
    (valmate (RulesArg.arr [throwRule]) (ReqV.obj ()) (ResV.obj true true) true).outcome =
      Outcome.responded 500 500 internalErrMsg ∧
    (valmate (RulesArg.arr [throwRule]) (ReqV.obj ()) (ResV.obj true true) true).errLog =
      [errLogTag ++ "boom"] ∧
    (valmate (RulesArg.arr [throwRule]) (ReqV.obj ()) (ResV.obj true true) true).nextCalls = 0 :=
  C7_throwing_test_500 [throwRule] (ReqV.obj ()) (ResV.obj true true) true 0 throwRule
    (fun _ => TestResult.exn "boom") "boom" rfl rfl rfl rfl ⟨rfl, rfl, rfl⟩

/-- C8: next is called at most once, and exactly when the outcome is that
control proceeded — never when a rule fails or any error occurs. -/
theorem C8_proceed_at_most_once {ρ : Type} (v : RulesArg ρ) (req : ReqV ρ)
    (res : ResV) (nextIsFn : Bool) :
    (valmate v req res nextIsFn).nextCalls ≤ 1 ∧
    (valmate v req res nextIsFn).nextCalls =
      (if (valmate v req res nextIsFn).outcome = Outcome.proceeded then 1 else 0) := by
  match v with
  | .notArr =>
    have h := catchBlock_ne_proceeded res configErrMsg
    constructor <;> simp [valmate, h]
  | .arr rs =>
    match hg : ctxGuard req res nextIsFn with
    | some m =>
      have h := catchBlock_ne_proceeded res m
      constructor <;> simp [valmate, hg, h]
    | none =>
      cases hx : (runRules req rs).2.2 with
      | passedAll => constructor <;> simp [valmate, hg, hx]
      | threw m =>
        have h := catchBlock_ne_proceeded res m
        constructor <;> simp [valmate, hg, hx, h]

/-- C9: calling the factory with no argument installs the default rule
set, whose single test returns undefined (falsy): every invocation on a
valid triple takes the ReferenceError path and answers the generic 500
response without calling next — not an always-pass empty rule set. -/
theorem C9_default_always_500 {ρ : Type} (req : ReqV ρ) (res : ResV) (nextIsFn : Bool)
    (hv : validTriple req res nextIsFn) :
    valmate (defaultValidations ρ) req res nextIsFn =
      ⟨Outcome.responded 500 500 internalErrMsg, [errLogTag ++ refErrMsg], 0, [0], 0⟩ := by
  have hg := ctxGuard_valid req res nextIsFn hv
  obtain ⟨h1, h2, h3⟩ := hv
  subst h2
  simp [valmate, defaultValidations, runRules, hg, catchBlock]

/-- Witness for C9 at a concrete valid triple. -/
theorem C9_default_always_500_witness :
    valmate (defaultValidations Unit) (ReqV.obj ()) (ResV.obj true true) true =
      ⟨Outcome.responded 500 500 internalErrMsg, [errLogTag ++ refErrMsg], 0, [0], 0⟩ :=
  C9_default_always_500 (ReqV.obj ()) (ResV.obj true true) true ⟨rfl, rfl, rfl⟩

/-- C10: every response the middleware itself sends passes to res.status
the same number that appears as the status field of the JSON body. -/
theorem C10_status_matches_body {ρ : Type} (v : RulesArg ρ) (req : ReqV ρ)
    (res : ResV) (nextIsFn : Bool) (s bs : Nat) (m : String)
    (h : (valmate v req res nextIsFn).outcome = Outcome.responded s bs m) :
    s = bs := by
  match v with
  | .notArr =>
    have hc := catchBlock_responded res configErrMsg s bs m (by simpa [valmate] using h)
    omega
  | .arr rs =>
    match hg : ctxGuard req res nextIsFn with
    | some m2 =>
      have hc := catchBlock_responded res m2 s bs m (by simpa [valmate, hg] using h)
      omega
    | none =>
      cases hx : (runRules req rs).2.2 with
      | passedAll => simp [valmate, hg, hx] at h
      | threw m2 =>
        have hc := catchBlock_responded res m2 s bs m (by simpa [valmate, hg, hx] using h)
        omega

/-- Witness for C10 at the non-array input, whose response is 500/500. -/
theorem C10_status_matches_body_witness :
    (valmate (RulesArg.notArr : RulesArg Unit) (ReqV.obj ())
      (ResV.obj true true) true).outcome = Outcome.responded 500 500 internalErrMsg ∧
    (500 : Nat) = 500 :=
  ⟨rfl, C10_status_matches_body RulesArg.notArr (ReqV.obj ()) (ResV.obj true true) true
    500 500 internalErrMsg rfl⟩

end Valmate
